import Mathlib

/- Verification of the SafeSol gating bot's verification and reconciliation
   core: the transfer matcher and ownership evaluator (src/services/solana.ts),
   the record store (src/db/drizzle.ts) and the confirmation handler and
   ownership sweep (src/bot.ts).  Token amounts and thresholds are modelled as
   exact rationals; timestamps as integers (milliseconds).  Remote calls are
   modelled by oracle fields holding their outcome. -/

namespace SafeSol

/-- Mirrors almostEqual(a, b, tolerance = 0.000001):
Math.abs(a - b) <= tolerance. -/
def almostEqual (a b : ℚ) (tolerance : ℚ := 1 / 1000000) : Bool :=
  decide (|a - b| ≤ tolerance)

/-- One entry of preTokenBalances / postTokenBalances in a transaction's
meta.  The uiAmount field models the access path
entry.uiTokenAmount?.uiAmount: it is none when uiTokenAmount or its
uiAmount member is absent. -/
structure TokenBalanceEntry where
  owner : Option String
  mint : Option String
  uiAmount : Option ℚ
deriving DecidableEq, Repr

/-- The meta object of a transaction returned by getTransaction. -/
structure TxMeta where
  preTokenBalances : Option (List TokenBalanceEntry)
  postTokenBalances : Option (List TokenBalanceEntry)
deriving DecidableEq, Repr

/-- A transaction as returned by getTransaction (none models a null
response and is skipped by the scan). -/
structure Transaction where
  slot : Nat
  blockTime : Option Int
  meta : Option TxMeta
deriving DecidableEq, Repr

/-- The result record of findMatchingTransfer. -/
structure MatchingTransfer where
  signature : String
  slot : Nat
  blockTime : Option Int
  userDelta : ℚ
  treasuryDelta : ℚ
deriving DecidableEq, Repr

/-- Mirrors balances.find(entry staying with owner === w and mint === m);
an entry with an absent owner or mint never compares equal to a wallet
string, as in the strict equality of the source. -/
def findEntry (entries : List TokenBalanceEntry) (w m : String) :
    Option TokenBalanceEntry :=
  entries.find? (fun e => decide (e.owner = some w ∧ e.mint = some m))

/-- Mirrors Number(entry.uiTokenAmount?.uiAmount || 0): a present numeric
amount q is used as-is (for numbers, q || 0 is q when q is not 0 and 0
when q is 0, hence q either way) and a missing one defaults to 0. -/
def uiOrZero (e : TokenBalanceEntry) : ℚ :=
  e.uiAmount.getD 0

/-- Body of the scan loop of findMatchingTransfer for one signature:
some transfer when the signature's deltas satisfy the match predicate,
none when the loop would continue (null transaction, missing meta,
missing required balance entries) or the deltas miss the tolerance. -/
def matchSignature (userWallet treasuryWallet mint : String)
    (expectedAmount : ℚ) (signature : String) (tx : Option Transaction) :
    Option MatchingTransfer :=
  match tx with
  | none => none
  | some t =>
    match t.meta with
    | none => none
    | some meta =>
      let preBalances := meta.preTokenBalances.getD []
      let postBalances := meta.postTokenBalances.getD []
      match findEntry preBalances userWallet mint,
            findEntry postBalances userWallet mint,
            findEntry postBalances treasuryWallet mint with
      | some userPre, some userPost, some treasuryPost =>
        let treasuryUiPre : ℚ :=
          match findEntry preBalances treasuryWallet mint with
          | none => 0
          | some treasuryPre => uiOrZero treasuryPre
        let userDelta := uiOrZero userPre - uiOrZero userPost
        let treasuryDelta := uiOrZero treasuryPost - treasuryUiPre
        if almostEqual userDelta expectedAmount &&
            almostEqual treasuryDelta expectedAmount then
          some ⟨signature, t.slot, t.blockTime, userDelta, treasuryDelta⟩
        else none
      | _, _, _ => none

/-- One fetched signature of the scan window: the signature string paired
with its getTransaction result. -/
abbrev SigEntry := String × Option Transaction

/-- Mirrors the scan of findMatchingTransfer: walk the newest-first
signature list, return the first signature whose computed deltas satisfy
the match predicate, or none after exhausting the window. -/
def findMatchingTransfer (userWallet treasuryWallet mint : String)
    (expectedAmount : ℚ) : List SigEntry → Option MatchingTransfer
  | [] => none
  | (sig, tx) :: rest =>
    match matchSignature userWallet treasuryWallet mint expectedAmount sig tx with
    | some m => some m
    | none => findMatchingTransfer userWallet treasuryWallet mint expectedAmount rest

/-- The result record of verifyOwnership. -/
structure OwnershipResult where
  isQualified : Bool
  percentOwned : ℚ
  balance : ℚ
  supply : ℚ
deriving DecidableEq, Repr

/-- The message of the zero-supply configuration error thrown by
verifyOwnership. -/
def zeroSupplyError : String := "Token supply is zero, cannot verify ownership."

/-- Pure core of verifyOwnership: the fetched supply and balance are taken
as inputs (the source fetches both concurrently before this logic runs);
a thrown error is modelled as Except.error. -/
def verifyOwnership (supply balance requiredPercent : ℚ) :
    Except String OwnershipResult :=
  if supply = 0 then Except.error zeroSupplyError
  else
    let percentOwned := balance / supply
    Except.ok ⟨decide (percentOwned ≥ requiredPercent), percentOwned, balance, supply⟩

/-- One row of the users table (src/db/drizzle.ts).  The spec's identity
record fields are modelled; nulls become none, the 0/1 flags become Bool,
ISO timestamp strings become integer instants compared the way the source
compares them (Date.now() against getTime()). -/
structure UserRow where
  id : Nat
  telegramId : String
  username : Option String
  walletAddress : Option String
  verificationCode : Option ℚ
  verificationExpiresAt : Option Int
  verified : Bool
  verifiedAt : Option Int
  lastBalance : Option ℚ
  lastCheckedAt : Option Int
  isWhitelisted : Bool
  requestedGroupId : Option String
deriving DecidableEq, Repr

/-- One row of the append-only verification_events table (payload elided:
the source stores it as opaque JSON that is never read back). -/
structure EventRow where
  userId : Nat
  eventType : String
deriving DecidableEq, Repr

/-- One row of the group_invites table. -/
structure InviteRow where
  userId : Nat
  inviteLink : String
deriving DecidableEq, Repr

/-- The record store: the users table, the append-only event log, the
invite table, and the autoincrement counter for user ids. -/
structure Db where
  users : List UserRow
  events : List EventRow
  invites : List InviteRow
  nextId : Nat
deriving DecidableEq, Repr

/-- Mirrors getUserByTelegramId: SELECT * FROM users WHERE telegram_id = ?. -/
def getUserByTelegramId (db : Db) (tid : String) : Option UserRow :=
  db.users.find? (fun u => decide (u.telegramId = tid))

/-- UPDATE users SET ... WHERE telegram_id = ?: apply f to every row whose
key matches (the key is unique in practice; the SQL touches all matches). -/
def updateWhere (users : List UserRow) (tid : String) (f : UserRow → UserRow) :
    List UserRow :=
  users.map (fun u => if u.telegramId = tid then f u else u)

/-- Mirrors upsertUser: update the username of an existing row (keeping the
old one when no new name is given) or insert a fresh row with only the
telegram id set; returns the stored row. -/
def upsertUser (db : Db) (tid : String) (username : Option String) :
    Db × Option UserRow :=
  match getUserByTelegramId db tid with
  | some existing =>
    let newName := match username with
      | some n => some n
      | none => existing.username
    let db1 : Db :=
      { db with users := updateWhere db.users tid (fun u => { u with username := newName }) }
    (db1, getUserByTelegramId db1 tid)
  | none =>
    let row : UserRow :=
      { id := db.nextId, telegramId := tid, username := username,
        walletAddress := none, verificationCode := none,
        verificationExpiresAt := none, verified := false, verifiedAt := none,
        lastBalance := none, lastCheckedAt := none, isWhitelisted := false,
        requestedGroupId := none }
    let db1 : Db := { db with users := db.users ++ [row], nextId := db.nextId + 1 }
    (db1, getUserByTelegramId db1 tid)

/-- INSERT INTO verification_events (user_id, event_type, ...). -/
def insertEvent (db : Db) (userId : Nat) (eventType : String) : Db :=
  { db with events := db.events ++ [⟨userId, eventType⟩] }

/-- Mirrors logEvent: upsert the user, then append an event for them. -/
def logEvent (db : Db) (tid : String) (eventType : String) : Db :=
  match upsertUser db tid none with
  | (db1, some u) => insertEvent db1 u.id eventType
  | (db1, none) => db1

/-- Mirrors updateBalance: set last_balance and last_checked_at of the
matching row; no event is written and no row is created. -/
def updateBalance (db : Db) (tid : String) (balance : ℚ) (now : Int) : Db :=
  let users1 := updateWhere db.users tid
    (fun u => { u with lastBalance := some balance, lastCheckedAt := some now })
  { db with users := users1 }

/-- Mirrors markVerified: for an existing row set verified, verified_at,
last_balance, last_checked_at and append a verified event. -/
def markVerified (db : Db) (tid : String) (balance : ℚ) (now : Int) : Db :=
  match getUserByTelegramId db tid with
  | none => db
  | some u =>
    let users1 := updateWhere db.users tid
      (fun v => { v with verified := true, verifiedAt := some now,
                         lastBalance := some balance, lastCheckedAt := some now })
    insertEvent { db with users := users1 } u.id "verified"

/-- Mirrors clearVerification: null out verification_code and
verification_expires_at of the matching row; nothing else is touched and
no event is written. -/
def clearVerification (db : Db) (tid : String) : Db :=
  let users1 := updateWhere db.users tid
    (fun u => { u with verificationCode := none, verificationExpiresAt := none })
  { db with users := users1 }

/-- Mirrors clearRequestedGroup: for an existing row null the requested
group and append a group_cleared event. -/
def clearRequestedGroup (db : Db) (tid : String) : Db :=
  match getUserByTelegramId db tid with
  | none => db
  | some u =>
    let users1 := updateWhere db.users tid (fun v => { v with requestedGroupId := none })
    insertEvent { db with users := users1 } u.id "group_cleared"

/-- Mirrors recordInviteLink: upsert the user, store the invite link and
append an invite_link_created event. -/
def recordInviteLink (db : Db) (tid : String) (link : String) : Db :=
  match upsertUser db tid none with
  | (db1, none) => db1
  | (db1, some u) =>
    let db2 : Db := { db1 with invites := db1.invites ++ [⟨u.id, link⟩] }
    insertEvent db2 u.id "invite_link_created"

/-- SELECT * FROM users WHERE verified = 1. -/
def getVerifiedUsers (db : Db) : List UserRow :=
  db.users.filter (fun u => u.verified)

/-- The row update performed by upsertUser on an existing row. -/
def updUsername (name : Option String) (u : UserRow) : UserRow :=
  { u with username := name }

/-- The fresh row inserted by upsertUser for an unknown telegram id when no
username is given. -/
def freshUser (idv : Nat) (tid : String) : UserRow :=
  { id := idv, telegramId := tid, username := none, walletAddress := none,
    verificationCode := none, verificationExpiresAt := none, verified := false,
    verifiedAt := none, lastBalance := none, lastCheckedAt := none,
    isWhitelisted := false, requestedGroupId := none }

/-- Environment of one handleConfirm run: the clock, the configuration
strings, and oracles giving the outcome each remote call would have
(Except.error models a thrown transient failure). -/
structure ConfirmCtx where
  now : Int
  tokenMint : String
  treasuryWallet : String
  groupId : String
  transferResult : Except String (Option MatchingTransfer)
  ownershipResult : Except String OwnershipResult
  inviteOk : Bool
  inviteLink : String
deriving Repr

/-- The reply branch handleConfirm ends in. -/
inductive ConfirmOutcome where
  | noActiveRequest
  | noWallet
  | missingConfig
  | expired
  | noTransfer
  | remoteFailure (message : String)
  | notQualified (percentOwned : ℚ)
  | verifiedWithGroup (balance : ℚ)
  | verifiedNoGroup (balance : ℚ)
deriving DecidableEq, Repr

/-- Result of one handleConfirm run: the record store afterwards, the
branch taken, and how many ledger operations (findMatchingTransfer,
verifyOwnership) were invoked. -/
structure ConfirmResult where
  db : Db
  outcome : ConfirmOutcome
  chainCalls : Nat
deriving Repr

/-- Mirrors handleConfirm (src/bot.ts): guard on a pending code, a wallet
and configuration; an expired code is cleared before any ledger call; then
the transfer match and the ownership check drive the admission decision.
The falsy checks of the source on strings treat the empty string like
null. -/
def handleConfirm (ctx : ConfirmCtx) (db : Db) (tid : String) : ConfirmResult :=
  match getUserByTelegramId db tid with
  | none => ⟨db, ConfirmOutcome.noActiveRequest, 0⟩
  | some user =>
    match user.verificationCode with
    | none => ⟨db, ConfirmOutcome.noActiveRequest, 0⟩
    | some _ =>
      if user.walletAddress.getD "" = "" then ⟨db, ConfirmOutcome.noWallet, 0⟩
      else if ctx.tokenMint = "" ∨ ctx.treasuryWallet = "" then
        ⟨db, ConfirmOutcome.missingConfig, 0⟩
      else if (match user.verificationExpiresAt with
               | some expires => decide (ctx.now > expires)
               | none => false) then
        ⟨clearVerification db tid, ConfirmOutcome.expired, 0⟩
      else
        match ctx.transferResult with
        | Except.error e => ⟨db, ConfirmOutcome.remoteFailure e, 1⟩
        | Except.ok none => ⟨db, ConfirmOutcome.noTransfer, 1⟩
        | Except.ok (some _) =>
          match ctx.ownershipResult with
          | Except.error e => ⟨db, ConfirmOutcome.remoteFailure e, 2⟩
          | Except.ok own =>
            if own.isQualified = false then
              ⟨db, ConfirmOutcome.notQualified own.percentOwned, 2⟩
            else
              let db1 := clearVerification (markVerified db tid own.balance ctx.now) tid
              let groupId := match user.requestedGroupId with
                | some g => if g = "" then ctx.groupId else g
                | none => ctx.groupId
              if groupId = "" then ⟨db1, ConfirmOutcome.verifiedNoGroup own.balance, 2⟩
              else
                let db2 := if ctx.inviteOk then recordInviteLink db1 tid ctx.inviteLink else db1
                ⟨clearRequestedGroup db2 tid, ConfirmOutcome.verifiedWithGroup own.balance, 2⟩

/-- Environment of one ownership sweep: the configured group, the clock,
and an oracle giving the outcome verifyOwnership would have for each
identity (Except.error models a thrown remote failure). -/
structure SweepCtx where
  groupId : String
  now : Int
  evalOwnership : UserRow → Except String OwnershipResult

/-- Observable state threaded through runOwnershipSweep: the record store,
the identities kicked from the group, and the identities whose evaluation
failed and was logged. -/
structure SweepState where
  db : Db
  kicked : List String
  loggedErrors : List String
deriving DecidableEq, Repr

/-- Body of the sweep loop for one identity (src/bot.ts, runOwnershipSweep):
whitelisted identities are skipped before anything else, identities
without a wallet are skipped, an evaluator failure is caught and logged,
otherwise the balance is persisted and a non-qualifying identity is
kicked (when a group is configured) and an ownership_revoked event is
appended. -/
def sweepStep (ctx : SweepCtx) (st : SweepState) (user : UserRow) : SweepState :=
  if user.isWhitelisted then st
  else if user.walletAddress.getD "" = "" then st
  else
    match ctx.evalOwnership user with
    | Except.error _ => { st with loggedErrors := st.loggedErrors ++ [user.telegramId] }
    | Except.ok own =>
      let db1 := updateBalance st.db user.telegramId own.balance ctx.now
      if own.isQualified then { st with db := db1 }
      else
        let db2 := logEvent db1 user.telegramId "ownership_revoked"
        let kicked1 := if ctx.groupId = "" then st.kicked else st.kicked ++ [user.telegramId]
        ⟨db2, kicked1, st.loggedErrors⟩

/-- The sweep loop over a snapshot list of identities. -/
def sweepList (ctx : SweepCtx) (users : List UserRow) (st : SweepState) : SweepState :=
  users.foldl (sweepStep ctx) st

/-- Mirrors runOwnershipSweep: snapshot the verified identities, then run
the loop over them starting from the current store. -/
def runOwnershipSweep (ctx : SweepCtx) (db : Db) : SweepState :=
  sweepList ctx (getVerifiedUsers db) ⟨db, [], []⟩

/- Concrete instances used to evaluate the definitions on explicit inputs
   (scenario data follows the examples of the design document: a challenge
   amount of 0.000004217 and a 0.1 percent threshold). -/

/-- The challenge amount 0.000004217 of the design document's scenario. -/
def amount0 : ℚ := 4217 / 1000000000

/-- A transaction in which wallet U sends exactly amount0 of mint M to
treasury T. -/
def txMatching : Transaction :=
  ⟨100, some 11,
    some ⟨some [⟨some "U", some "M", some 5⟩, ⟨some "T", some "M", some 0⟩],
          some [⟨some "U", some "M", some (5 - amount0)⟩,
                ⟨some "T", some "M", some amount0⟩]⟩⟩

/-- The matcher result for txMatching under signature s1. -/
def tr0 : MatchingTransfer := ⟨"s1", 100, some 11, amount0, amount0⟩

/-- Pre balances whose entries exist but carry no uiAmount value. -/
def preMissing : List TokenBalanceEntry :=
  [⟨some "U", some "M", none⟩, ⟨some "T", some "M", none⟩]

/-- Post balances whose entries exist but carry no uiAmount value. -/
def postMissing : List TokenBalanceEntry :=
  [⟨some "U", some "M", none⟩, ⟨some "T", some "M", none⟩]

/-- An identity with a pending challenge, a wallet on file and a requested
group (expires at instant 1000). -/
def pendingUser : UserRow :=
  { id := 1, telegramId := "42", username := some "whale",
    walletAddress := some "WalletU", verificationCode := some (5 / 1000000),
    verificationExpiresAt := some 1000, verified := false, verifiedAt := none,
    lastBalance := none, lastCheckedAt := none, isWhitelisted := false,
    requestedGroupId := some "-100" }

/-- A store holding exactly pendingUser. -/
def pendingDb : Db := ⟨[pendingUser], [], [], 2⟩

/-- A confirmation environment whose clock (2000) is past the pending
challenge's expiry (1000). -/
def ctxExpired : ConfirmCtx :=
  ⟨2000, "Mint", "Treasury", "-100", Except.ok none,
    Except.ok ⟨true, 1, 1, 1⟩, true, "link"⟩

/-- A confirmation environment in which the transfer is found but the
holder owns 0.001 percent of supply, below the 0.1 percent threshold. -/
def ctxBelowThreshold : ConfirmCtx :=
  ⟨500, "Mint", "Treasury", "-100",
    Except.ok (some ⟨"s1", 100, some 11, 5 / 1000000, 5 / 1000000⟩),
    Except.ok ⟨false, 1 / 100000, 1, 100000⟩, true, "link"⟩

/-- A verified, non-whitelisted identity named u1. -/
def sweepUser1 : UserRow :=
  { id := 1, telegramId := "u1", username := some "one",
    walletAddress := some "w1", verificationCode := none,
    verificationExpiresAt := none, verified := true, verifiedAt := some 10,
    lastBalance := some 100, lastCheckedAt := some 10, isWhitelisted := false,
    requestedGroupId := none }

/-- A verified, non-whitelisted identity named u2. -/
def sweepUser2 : UserRow :=
  { id := 2, telegramId := "u2", username := some "two",
    walletAddress := some "w2", verificationCode := none,
    verificationExpiresAt := none, verified := true, verifiedAt := some 10,
    lastBalance := some 200, lastCheckedAt := some 10, isWhitelisted := false,
    requestedGroupId := none }

/-- A verified, non-whitelisted identity named u3. -/
def sweepUser3 : UserRow :=
  { id := 3, telegramId := "u3", username := some "three",
    walletAddress := some "w3", verificationCode := none,
    verificationExpiresAt := none, verified := true, verifiedAt := some 10,
    lastBalance := some 300, lastCheckedAt := some 10, isWhitelisted := false,
    requestedGroupId := none }

/-- A verified identity that an admin whitelisted. -/
def sweepUserWl : UserRow :=
  { id := 4, telegramId := "wl", username := some "rescued",
    walletAddress := some "w4", verificationCode := none,
    verificationExpiresAt := none, verified := true, verifiedAt := some 10,
    lastBalance := some 0, lastCheckedAt := some 10, isWhitelisted := true,
    requestedGroupId := none }

/-- A store holding the three verified identities u1, u2, u3. -/
def sweepDb3 : Db := ⟨[sweepUser1, sweepUser2, sweepUser3], [], [], 5⟩

/-- A sweep environment in which evaluating u2 fails transiently and every
other identity evaluates to a non-qualifying result. -/
def sweepCtxFail : SweepCtx :=
  ⟨"-100", 2000, fun v =>
    if v.telegramId = "u2" then Except.error "boom"
    else Except.ok ⟨false, 0, 0, 1⟩⟩

/-- A sweep environment in which every identity evaluates to the same
non-qualifying result. -/
def sweepCtxBelow : SweepCtx :=
  ⟨"-100", 2000, fun _ => Except.ok ⟨false, 1 / 100000, 1, 100000⟩⟩

/-- A verified, non-whitelisted identity that still has challenge fields
on file, used to run the sweep's revocation path. -/
def revokeUser : UserRow :=
  { id := 1, telegramId := "whale1", username := some "whale",
    walletAddress := some "WalletW", verificationCode := some (5 / 1000000),
    verificationExpiresAt := some 1000, verified := true, verifiedAt := some 500,
    lastBalance := some 100, lastCheckedAt := some 500, isWhitelisted := false,
    requestedGroupId := none }

/-- A store holding exactly revokeUser. -/
def revokeDb : Db := ⟨[revokeUser], [], [], 2⟩

/- Theorems. -/

/-- C2: the transfer match predicate holds exactly when the absolute
difference is at most 1e-6 (boundary inclusive, failing for any strictly
larger difference), and a transfer reported by the matcher has both its
user delta and its treasury delta within that tolerance of the expected
amount, each side checked independently. -/
theorem c2_match_predicate_tolerance :
    (∀ a b : ℚ, almostEqual a b = true ↔ |a - b| ≤ 1 / 1000000) ∧
    (∀ uw tw mint exp sig tx m,
        matchSignature uw tw mint exp sig tx = some m →
        almostEqual m.userDelta exp = true ∧ almostEqual m.treasuryDelta exp = true) := by
  constructor
  · intro a b
    simp [almostEqual]
  · intro uw tw mint exp sig tx m h
    cases tx with
    | none => simp [matchSignature] at h
    | some t =>
      obtain ⟨slot, bt, meta⟩ := t
      cases meta with
      | none => simp [matchSignature] at h
      | some meta =>
        simp only [matchSignature] at h
        cases hup : findEntry (meta.preTokenBalances.getD []) uw mint with
        | none => simp [hup] at h
        | some up =>
          cases hupo : findEntry (meta.postTokenBalances.getD []) uw mint with
          | none => simp [hup, hupo] at h
          | some upo =>
            cases htp : findEntry (meta.postTokenBalances.getD []) tw mint with
            | none => simp [hup, hupo, htp] at h
            | some tp =>
              simp only [hup, hupo, htp] at h
              split at h
              · rename_i hcond
                injection h with h
                subst h
                rw [Bool.and_eq_true] at hcond
                exact ⟨hcond.1, hcond.2⟩
              · exact absurd h (by simp)

/-- Witness for C2 at concrete inputs: the predicate instance for the pair
(3e-6, 2e-6) and the delta property of the transfer matched in
txMatching. -/
theorem c2_match_predicate_tolerance_witness :
    (almostEqual (3 / 1000000) (2 / 1000000) = true ↔
      |(3 : ℚ) / 1000000 - 2 / 1000000| ≤ 1 / 1000000) ∧
    (almostEqual tr0.userDelta amount0 = true ∧
      almostEqual tr0.treasuryDelta amount0 = true) := by
  refine ⟨c2_match_predicate_tolerance.1 (3 / 1000000) (2 / 1000000), ?_⟩
  exact c2_match_predicate_tolerance.2 "U" "T" "M" amount0 "s1" (some txMatching) tr0
    (by norm_num [matchSignature, findEntry, uiOrZero, almostEqual, txMatching,
          amount0, tr0, List.find?,
          (show (decide (("U" : String) = "T")) = false by decide),
          (show (decide (("T" : String) = "U")) = false by decide)])

/-- C3: the scan is first-match in newest-first list order: if every
signature before some matching signature fails the match, that signature's
transfer is returned even when matches exist further back; and if no
signature of the window matches, the scan reports no match. -/
theorem c3_first_match_newest :
    (∀ uw tw mint exp (chain : List SigEntry),
        (∀ p ∈ chain, matchSignature uw tw mint exp p.1 p.2 = none) →
        findMatchingTransfer uw tw mint exp chain = none) ∧
    (∀ uw tw mint exp (earlier : List SigEntry) sig tx m (rest : List SigEntry),
        (∀ p ∈ earlier, matchSignature uw tw mint exp p.1 p.2 = none) →
        matchSignature uw tw mint exp sig tx = some m →
        findMatchingTransfer uw tw mint exp (earlier ++ (sig, tx) :: rest) = some m) := by
  constructor
  · intro uw tw mint exp chain h
    induction chain with
    | nil => rfl
    | cons p ps ih =>
      obtain ⟨s, t⟩ := p
      have hs : matchSignature uw tw mint exp s t = none := h (s, t) (by simp)
      simp only [findMatchingTransfer, hs]
      exact ih (fun q hq => h q (List.mem_cons_of_mem _ hq))
  · intro uw tw mint exp earlier sig tx m rest hnone hm
    induction earlier with
    | nil => simp [findMatchingTransfer, hm]
    | cons p ps ih =>
      obtain ⟨s, t⟩ := p
      have hs : matchSignature uw tw mint exp s t = none := hnone (s, t) (by simp)
      simp only [List.cons_append, findMatchingTransfer, hs]
      exact ih (fun q hq => hnone q (List.mem_cons_of_mem _ hq))

/-- Witness for C3 at concrete inputs: with two matching signatures s1
(newest) and s2 the scan returns s1's transfer, and over a window whose
only transaction is null it reports no match. -/
theorem c3_first_match_newest_witness :
    findMatchingTransfer "U" "T" "M" amount0
        [("s1", some txMatching), ("s2", some txMatching)] = some tr0 ∧
    findMatchingTransfer "U" "T" "M" amount0 [("s3", none)] = none := by
  constructor
  · exact c3_first_match_newest.2 "U" "T" "M" amount0 [] "s1" (some txMatching) tr0
      [("s2", some txMatching)] (by simp)
      (by norm_num [matchSignature, findEntry, uiOrZero, almostEqual, txMatching,
            amount0, tr0, List.find?,
            (show (decide (("U" : String) = "T")) = false by decide),
            (show (decide (("T" : String) = "U")) = false by decide)])
  · exact c3_first_match_newest.1 "U" "T" "M" amount0 [("s3", none)]
      (by intro p hp; simp at hp; simp [hp, matchSignature])

/-- C4: with non-zero supply the ownership evaluator returns a result whose
percentOwned is balance divided by supply and which qualifies exactly when
that fraction is at least the required one, boundary included. -/
theorem c4_ownership_threshold (supply balance requiredPercent : ℚ)
    (h : supply ≠ 0) :
    ∃ r, verifyOwnership supply balance requiredPercent = Except.ok r ∧
      r.percentOwned = balance / supply ∧
      (r.isQualified = true ↔ balance / supply ≥ requiredPercent) := by
  refine ⟨⟨decide (balance / supply ≥ requiredPercent), balance / supply,
      balance, supply⟩, ?_, rfl, ?_⟩
  · simp [verifyOwnership, h]
  · simp

/-- Witness for C4 at the design document's boundary scenario: balance 10
of supply 10000 with required fraction 0.001 qualifies exactly at the
threshold. -/
theorem c4_ownership_threshold_witness :
    ∃ r, verifyOwnership 10000 10 (1 / 1000) = Except.ok r ∧
      r.isQualified = true := by
  obtain ⟨r, hr, _, hiff⟩ := c4_ownership_threshold 10000 10 (1 / 1000) (by norm_num)
  exact ⟨r, hr, hiff.mpr (by norm_num)⟩

/-- C5: zero supply always yields the configuration-error outcome; no
qualifies or does-not-qualify verdict is produced. -/
theorem c5_zero_supply_error (balance requiredPercent : ℚ) :
    verifyOwnership 0 balance requiredPercent = Except.error zeroSupplyError := by
  simp [verifyOwnership]

/-- C10: balance-snapshot entries that are present but carry no uiAmount
value are treated as amount 0 rather than causing a skip, for the holder's
pre and post entries and the treasury's post entry just as for the
optional treasury pre entry: with all four amounts missing the deltas are
computed as 0 and the signature still matches an expected amount within
tolerance of 0. -/
theorem c10_missing_uiAmount_defaults_to_zero
    (uw tw mint sig : String) (slot : Nat) (bt : Option Int)
    (pre post : List TokenBalanceEntry) (exp : ℚ)
    (up upost tpre tpost : TokenBalanceEntry)
    (hup : findEntry pre uw mint = some up)
    (hupost : findEntry post uw mint = some upost)
    (htpre : findEntry pre tw mint = some tpre)
    (htpost : findEntry post tw mint = some tpost)
    (h1 : up.uiAmount = none) (h2 : upost.uiAmount = none)
    (h3 : tpre.uiAmount = none) (h4 : tpost.uiAmount = none)
    (htol : |(0 : ℚ) - exp| ≤ 1 / 1000000) :
    matchSignature uw tw mint exp sig (some ⟨slot, bt, some ⟨some pre, some post⟩⟩) =
      some ⟨sig, slot, bt, 0, 0⟩ := by
  have ha : almostEqual 0 exp = true := by
    simp only [almostEqual, decide_eq_true_eq]
    exact htol
  simp only [matchSignature, Option.getD_some, hup, hupost, htpre, htpost,
    uiOrZero, h1, h2, h3, h4, Option.getD_none, sub_zero, ha, Bool.and_self,
    if_true]

/-- Witness for C10 at concrete inputs: entries of preMissing and
postMissing exist for holder U and treasury T but all lack uiAmount, and
the signature still matches an expected amount of 0 with zero deltas. -/
theorem c10_missing_uiAmount_defaults_to_zero_witness :
    matchSignature "U" "T" "M" 0 "s1"
        (some ⟨100, some 11, some ⟨some preMissing, some postMissing⟩⟩) =
      some ⟨"s1", 100, some 11, 0, 0⟩ := by
  exact c10_missing_uiAmount_defaults_to_zero "U" "T" "M" "s1" 100 (some 11)
    preMissing postMissing 0 ⟨some "U", some "M", none⟩ ⟨some "U", some "M", none⟩
    ⟨some "T", some "M", none⟩ ⟨some "T", some "M", none⟩
    (by simp [preMissing, findEntry, List.find?])
    (by simp [postMissing, findEntry, List.find?])
    (by norm_num [preMissing, findEntry, List.find?,
        (show (decide (("U" : String) = "T")) = false by decide)])
    (by norm_num [postMissing, findEntry, List.find?,
        (show (decide (("U" : String) = "T")) = false by decide)])
    rfl rfl rfl rfl (by norm_num)

/-- C6: confirming a pending challenge after its expiry clears exactly the
two challenge fields of that identity's record, writes no event, touches
no other record, and the result does not depend on the ledger oracles, so
no chain call is made (chainCalls = 0). -/
theorem c6_expired_confirm_clears_challenge_only
    (ctx : ConfirmCtx) (db : Db) (tid : String) (user : UserRow)
    (code : ℚ) (w : String) (expiry : Int)
    (hu : getUserByTelegramId db tid = some user)
    (hcode : user.verificationCode = some code)
    (hw : user.walletAddress = some w) (hwne : w ≠ "")
    (hmint : ctx.tokenMint ≠ "") (htreas : ctx.treasuryWallet ≠ "")
    (hexp : user.verificationExpiresAt = some expiry)
    (hlate : ctx.now > expiry) :
    handleConfirm ctx db tid = ⟨clearVerification db tid, ConfirmOutcome.expired, 0⟩ ∧
    (clearVerification db tid).users =
      db.users.map (fun u => if u.telegramId = tid then
        { u with verificationCode := none, verificationExpiresAt := none } else u) ∧
    (clearVerification db tid).events = db.events ∧
    (clearVerification db tid).invites = db.invites ∧
    (clearVerification db tid).nextId = db.nextId ∧
    (∀ tr own,
      handleConfirm { ctx with transferResult := tr, ownershipResult := own } db tid =
        handleConfirm ctx db tid) := by
  refine ⟨?_, rfl, rfl, rfl, rfl, ?_⟩
  · simp [handleConfirm, hu, hcode, hw, hwne, hmint, htreas, hexp, hlate]
  · intro tr own
    simp [handleConfirm, hu, hcode, hw, hwne, hmint, htreas, hexp, hlate]

/-- Witness for C6 at concrete inputs: confirming pendingUser's challenge
at instant 2000, past its expiry 1000, clears the challenge and makes no
chain call. -/
theorem c6_expired_confirm_clears_challenge_only_witness :
    handleConfirm ctxExpired pendingDb "42" =
      ⟨clearVerification pendingDb "42", ConfirmOutcome.expired, 0⟩ := by
  exact (c6_expired_confirm_clears_challenge_only ctxExpired pendingDb "42"
    pendingUser (5 / 1000000) "WalletU" 1000 rfl rfl rfl (by decide) (by decide)
    (by decide) rfl (by decide)).1

/-- C7: when the transfer is found but the holder does not meet the
ownership threshold, the record store is completely unchanged, so the
challenge fields stay intact for a later retry without re-issuing. -/
theorem c7_not_qualified_preserves_record
    (ctx : ConfirmCtx) (db : Db) (tid : String) (user : UserRow)
    (code : ℚ) (w : String) (tr : MatchingTransfer) (own : OwnershipResult)
    (hu : getUserByTelegramId db tid = some user)
    (hcode : user.verificationCode = some code)
    (hw : user.walletAddress = some w) (hwne : w ≠ "")
    (hmint : ctx.tokenMint ≠ "") (htreas : ctx.treasuryWallet ≠ "")
    (hexp : ∀ e, user.verificationExpiresAt = some e → ctx.now ≤ e)
    (htr : ctx.transferResult = Except.ok (some tr))
    (hown : ctx.ownershipResult = Except.ok own)
    (hnq : own.isQualified = false) :
    handleConfirm ctx db tid = ⟨db, ConfirmOutcome.notQualified own.percentOwned, 2⟩ := by
  have hnotlate : (match user.verificationExpiresAt with
      | some expires => decide (ctx.now > expires)
      | none => false) = false := by
    cases hE : user.verificationExpiresAt with
    | none => rfl
    | some e =>
      simp only [decide_eq_false_iff_not]
      exact not_lt.mpr (hexp e hE)
  simp [handleConfirm, hu, hcode, hw, hwne, hmint, htreas, hnotlate, htr, hown, hnq]

/-- Witness for C7 at concrete inputs: pendingUser's transfer is found but
holdings are 0.001 percent of supply, below the threshold; the store is
returned unchanged with the challenge intact. -/
theorem c7_not_qualified_preserves_record_witness :
    handleConfirm ctxBelowThreshold pendingDb "42" =
      ⟨pendingDb, ConfirmOutcome.notQualified (1 / 100000), 2⟩ := by
  exact c7_not_qualified_preserves_record ctxBelowThreshold pendingDb "42"
    pendingUser (5 / 1000000) "WalletU" ⟨"s1", 100, some 11, 5 / 1000000, 5 / 1000000⟩
    ⟨false, 1 / 100000, 1, 100000⟩ rfl rfl rfl (by decide) (by decide) (by decide)
    (by intro e he; injection he with he; subst he; decide) rfl rfl rfl

/- Helper lemmas about the sweep loop, shared by the sweep claims. -/

/-- The sweep loop over a cons cell is the step followed by the loop. -/
theorem sweepList_cons (ctx : SweepCtx) (u : UserRow) (rest : List UserRow)
    (st : SweepState) :
    sweepList ctx (u :: rest) st = sweepList ctx rest (sweepStep ctx st u) := rfl

/-- The sweep loop over an empty snapshot changes nothing. -/
theorem sweepList_nil (ctx : SweepCtx) (st : SweepState) :
    sweepList ctx [] st = st := rfl

/-- The sweep loop over an appended snapshot runs the two parts in order. -/
theorem sweepList_append (ctx : SweepCtx) (a b : List UserRow) (st : SweepState) :
    sweepList ctx (a ++ b) st = sweepList ctx b (sweepList ctx a st) := by
  simp [sweepList, List.foldl_append]

/-- A caught evaluator failure only appends the identity to the error log:
the store and the kick list are exactly those of the incoming state. -/
theorem sweepStep_error (ctx : SweepCtx) (st : SweepState) (u : UserRow) (e : String)
    (hwl : u.isWhitelisted = false) (hw : u.walletAddress.getD "" ≠ "")
    (he : ctx.evalOwnership u = Except.error e) :
    sweepStep ctx st u = ⟨st.db, st.kicked, st.loggedErrors ++ [u.telegramId]⟩ := by
  simp [sweepStep, hwl, hw, he]

/-- The step never reads the error log: running it from a state with log l
gives the same store and kick list as from an empty log, with l prefixed. -/
theorem sweepStep_shift (ctx : SweepCtx) (d : Db) (k l : List String) (u : UserRow) :
    sweepStep ctx ⟨d, k, l⟩ u =
      ⟨(sweepStep ctx ⟨d, k, []⟩ u).db, (sweepStep ctx ⟨d, k, []⟩ u).kicked,
        l ++ (sweepStep ctx ⟨d, k, []⟩ u).loggedErrors⟩ := by
  unfold sweepStep
  cases hwl : u.isWhitelisted with
  | true => simp
  | false =>
    by_cases hw : u.walletAddress.getD "" = ""
    · simp [hw]
    · simp only [hw, if_false, Bool.false_eq_true]
      cases he : ctx.evalOwnership u with
      | error e => simp
      | ok own =>
        cases hq : own.isQualified with
        | true => simp [hq]
        | false => simp [hq]

/-- The loop never reads the error log: running it from a state with log l
gives the same store and kick list as from an empty log, with l prefixed. -/
theorem sweepList_shift (ctx : SweepCtx) (users : List UserRow) :
    ∀ d k l, sweepList ctx users ⟨d, k, l⟩ =
      ⟨(sweepList ctx users ⟨d, k, []⟩).db, (sweepList ctx users ⟨d, k, []⟩).kicked,
        l ++ (sweepList ctx users ⟨d, k, []⟩).loggedErrors⟩ := by
  induction users with
  | nil => intro d k l; simp [sweepList_nil]
  | cons u rest ih =>
    intro d k l
    rw [sweepList_cons, sweepList_cons, sweepStep_shift]
    rcases hr : sweepStep ctx ⟨d, k, []⟩ u with ⟨d1, k1, l1⟩
    show sweepList ctx rest ⟨d1, k1, l ++ l1⟩ =
      ⟨(sweepList ctx rest ⟨d1, k1, l1⟩).db, (sweepList ctx rest ⟨d1, k1, l1⟩).kicked,
        l ++ (sweepList ctx rest ⟨d1, k1, l1⟩).loggedErrors⟩
    rw [ih d1 k1 (l ++ l1), ih d1 k1 l1]
    simp [List.append_assoc]

/-- Updating rows keyed by another telegram id does not change which row a
lookup by this telegram id finds, provided the update keeps keys. -/
theorem getUser_updateWhere_ne (users : List UserRow) (t tother : String)
    (f : UserRow → UserRow) (hf : ∀ v, (f v).telegramId = v.telegramId)
    (hne : tother ≠ t) :
    (updateWhere users tother f).find? (fun v => decide (v.telegramId = t)) =
      users.find? (fun v => decide (v.telegramId = t)) := by
  induction users with
  | nil => rfl
  | cons a as ih =>
    simp only [updateWhere, List.map_cons]
    by_cases ha : a.telegramId = tother
    · rw [if_pos ha, List.find?_cons_of_neg _ (by simp [hf a, ha, hne]),
        List.find?_cons_of_neg _ (by simp [ha, hne])]
      exact ih
    · rw [if_neg ha]
      by_cases hat : a.telegramId = t
      · rw [List.find?_cons_of_pos _ (by simp [hat]),
          List.find?_cons_of_pos _ (by simp [hat])]
      · rw [List.find?_cons_of_neg _ (by simp [hat]),
          List.find?_cons_of_neg _ (by simp [hat])]
        exact ih

/-- Refreshing the balance of an identity with another telegram id leaves
the record a lookup by this telegram id finds unchanged. -/
theorem getUser_updateBalance_ne (db : Db) (tid t : String) (balance : ℚ)
    (now : Int) (hne : tid ≠ t) :
    getUserByTelegramId (updateBalance db tid balance now) t =
      getUserByTelegramId db t := by
  unfold getUserByTelegramId updateBalance
  exact getUser_updateWhere_ne db.users t tid _ (fun _ => rfl) hne

/-- Updating rows keyed by a telegram id rewrites exactly the row a lookup
by that id finds, provided the update keeps keys. -/
theorem getUser_updateWhere_same (users : List UserRow) (tid : String)
    (f : UserRow → UserRow) (hf : ∀ v, (f v).telegramId = v.telegramId)
    (ex : UserRow)
    (hex : users.find? (fun v => decide (v.telegramId = tid)) = some ex) :
    (updateWhere users tid f).find? (fun v => decide (v.telegramId = tid)) =
      some (f ex) := by
  induction users with
  | nil => simp [List.find?] at hex
  | cons a as ih =>
    simp only [updateWhere, List.map_cons]
    by_cases ha : a.telegramId = tid
    · rw [List.find?_cons_of_pos _ (by simp [ha])] at hex
      injection hex with hex; subst hex
      rw [if_pos ha, List.find?_cons_of_pos _ (by simp [hf a, ha])]
    · rw [List.find?_cons_of_neg _ (by simp [ha])] at hex
      rw [if_neg ha, List.find?_cons_of_neg _ (by simp [ha])]
      exact ih hex

/-- Upserting a present identity with no new username rewrites its row in
place (keeping the old username) and returns that row. -/
theorem upsertUser_existing (db : Db) (tid : String) (ex : UserRow)
    (hu : getUserByTelegramId db tid = some ex) :
    upsertUser db tid none =
      (⟨updateWhere db.users tid (updUsername ex.username),
          db.events, db.invites, db.nextId⟩,
        some (updUsername ex.username ex)) := by
  simp only [upsertUser, hu]
  unfold getUserByTelegramId
  rw [getUser_updateWhere_same db.users tid
    (fun u => { u with username := ex.username }) (fun _ => rfl) ex hu]
  rfl

/-- Upserting a missing identity appends a fresh row holding only the
telegram id and returns it. -/
theorem upsertUser_missing (db : Db) (tid : String)
    (hu : getUserByTelegramId db tid = none) :
    upsertUser db tid none =
      (⟨db.users ++ [freshUser db.nextId tid], db.events, db.invites,
          db.nextId + 1⟩,
        some (freshUser db.nextId tid)) := by
  simp only [upsertUser, hu]
  unfold getUserByTelegramId
  rw [List.find?_append]
  rw [show db.users.find? (fun v => decide (v.telegramId = tid)) = none from hu]
  rw [Option.none_or, List.find?_cons_of_pos _ (by simp [freshUser])]
  rfl

/-- Logging an event for an identity with another telegram id leaves the
record a lookup by this telegram id finds unchanged. -/
theorem getUser_logEvent_ne (db : Db) (tid t ev : String) (hne : tid ≠ t) :
    getUserByTelegramId (logEvent db tid ev) t = getUserByTelegramId db t := by
  unfold logEvent
  cases hu : getUserByTelegramId db tid with
  | some ex =>
    rw [upsertUser_existing db tid ex hu]
    show getUserByTelegramId (insertEvent
      ⟨updateWhere db.users tid (updUsername ex.username),
        db.events, db.invites, db.nextId⟩
      (updUsername ex.username ex).id ev) t = getUserByTelegramId db t
    unfold insertEvent getUserByTelegramId
    exact getUser_updateWhere_ne db.users t tid _ (fun _ => rfl) hne
  | none =>
    rw [upsertUser_missing db tid hu]
    show getUserByTelegramId (insertEvent
      ⟨db.users ++ [freshUser db.nextId tid], db.events, db.invites,
        db.nextId + 1⟩ (freshUser db.nextId tid).id ev) t =
      getUserByTelegramId db t
    unfold insertEvent getUserByTelegramId
    rw [List.find?_append]
    have hnone : List.find? (fun v2 => decide (v2.telegramId = t))
        [freshUser db.nextId tid] = none := by
      simp [List.find?, freshUser, hne]
    rw [hnone, Option.or_none]

/-- One sweep step for an identity with another telegram id leaves the
record a lookup by this telegram id finds unchanged. -/
theorem sweepStep_preserves_other (ctx : SweepCtx) (st : SweepState)
    (v : UserRow) (t : String) (hne : v.telegramId ≠ t) :
    getUserByTelegramId (sweepStep ctx st v).db t = getUserByTelegramId st.db t := by
  unfold sweepStep
  cases hwl : v.isWhitelisted with
  | true => rfl
  | false =>
    by_cases hw : v.walletAddress.getD "" = ""
    · simp [hw]
    · simp only [hw, if_false, Bool.false_eq_true]
      cases he : ctx.evalOwnership v with
      | error e => rfl
      | ok own =>
        have hbal := getUser_updateBalance_ne st.db v.telegramId t own.balance ctx.now hne
        have hlog := getUser_logEvent_ne
          (updateBalance st.db v.telegramId own.balance ctx.now) v.telegramId t
          "ownership_revoked" hne
        cases hq : own.isQualified with
        | true => simpa [hq] using hbal
        | false => simpa [hq] using hlog.trans hbal

/-- The sweep loop over identities all keyed differently from this
telegram id leaves the record a lookup by it finds unchanged. -/
theorem sweepList_preserves_other (ctx : SweepCtx) (users : List UserRow)
    (t : String) :
    ∀ st, (∀ v ∈ users, v.telegramId ≠ t) →
      getUserByTelegramId (sweepList ctx users st).db t = getUserByTelegramId st.db t := by
  induction users with
  | nil => intro st _; rfl
  | cons v rest ih =>
    intro st h
    rw [sweepList_cons]
    rw [ih _ (fun w hw => h w (List.mem_cons_of_mem _ hw))]
    exact sweepStep_preserves_other ctx st v t (h v (by simp))

/-- C9: a whitelisted identity is never touched by the sweep: its step is
the identity on the sweep state for every environment (so no ownership
evaluation, balance update, kick or event can occur for it), and a run
over a snapshot containing it equals the run with it removed. -/
theorem c9_whitelisted_never_revoked
    (ctx : SweepCtx) (st : SweepState) (l1 l2 : List UserRow) (u : UserRow)
    (hwl : u.isWhitelisted = true) :
    sweepStep ctx st u = st ∧
    sweepList ctx (l1 ++ u :: l2) st = sweepList ctx (l1 ++ l2) st := by
  have hstep : ∀ s : SweepState, sweepStep ctx s u = s := by
    intro s; simp [sweepStep, hwl]
  refine ⟨hstep st, ?_⟩
  rw [sweepList_append, sweepList_cons, hstep, ← sweepList_append]

/-- Witness for C9 at concrete inputs: the whitelisted identity wl is
skipped by the step and dropping it from a snapshot does not change the
sweep, even under an environment that disqualifies everyone. -/
theorem c9_whitelisted_never_revoked_witness :
    sweepStep sweepCtxBelow ⟨sweepDb3, [], []⟩ sweepUserWl = ⟨sweepDb3, [], []⟩ ∧
    sweepList sweepCtxBelow ([sweepUser1] ++ sweepUserWl :: [sweepUser3])
        ⟨sweepDb3, [], []⟩ =
      sweepList sweepCtxBelow ([sweepUser1] ++ [sweepUser3]) ⟨sweepDb3, [], []⟩ := by
  exact c9_whitelisted_never_revoked sweepCtxBelow ⟨sweepDb3, [], []⟩
    [sweepUser1] [sweepUser3] sweepUserWl rfl

/-- C8: an evaluator failure for one identity of the run is isolated: the
resulting store and kick list are those of the run with that identity
removed (every other identity is still evaluated and, if applicable,
revoked), the failure is logged, and the failing identity's stored record
is left untouched. -/
theorem c8_sweep_failure_isolated
    (ctx : SweepCtx) (db : Db) (l1 l2 : List UserRow) (u : UserRow) (e : String)
    (hsplit : getVerifiedUsers db = l1 ++ u :: l2)
    (hwl : u.isWhitelisted = false) (hw : u.walletAddress.getD "" ≠ "")
    (he : ctx.evalOwnership u = Except.error e)
    (hdistinct : ∀ v ∈ l1 ++ l2, v.telegramId ≠ u.telegramId) :
    (runOwnershipSweep ctx db).db = (sweepList ctx (l1 ++ l2) ⟨db, [], []⟩).db ∧
    (runOwnershipSweep ctx db).kicked = (sweepList ctx (l1 ++ l2) ⟨db, [], []⟩).kicked ∧
    u.telegramId ∈ (runOwnershipSweep ctx db).loggedErrors ∧
    getUserByTelegramId (runOwnershipSweep ctx db).db u.telegramId =
      getUserByTelegramId db u.telegramId := by
  have hd1 : ∀ v ∈ l1, v.telegramId ≠ u.telegramId := by
    intro v hv; exact hdistinct v (List.mem_append_left _ hv)
  have hd2 : ∀ v ∈ l2, v.telegramId ≠ u.telegramId := by
    intro v hv; exact hdistinct v (List.mem_append_right _ hv)
  have hrun : runOwnershipSweep ctx db = sweepList ctx (l1 ++ u :: l2) ⟨db, [], []⟩ := by
    unfold runOwnershipSweep; rw [hsplit]
  rw [hrun]
  rw [sweepList_append, sweepList_cons, sweepStep_error ctx _ u e hwl hw he]
  rcases h1 : sweepList ctx l1 ⟨db, [], []⟩ with ⟨dA, kA, lA⟩
  rw [sweepList_append, h1]
  rw [sweepList_shift ctx l2 dA kA (lA ++ [u.telegramId]),
    sweepList_shift ctx l2 dA kA lA]
  refine ⟨rfl, rfl, by simp, ?_⟩
  have hl2 : getUserByTelegramId
      (sweepList ctx l2 ⟨dA, kA, []⟩).db u.telegramId =
      getUserByTelegramId dA u.telegramId :=
    sweepList_preserves_other ctx l2 u.telegramId ⟨dA, kA, []⟩ hd2
  have hl1 : getUserByTelegramId dA u.telegramId =
      getUserByTelegramId db u.telegramId := by
    have := sweepList_preserves_other ctx l1 u.telegramId ⟨db, [], []⟩ hd1
    rw [h1] at this
    exact this
  exact hl2.trans hl1

/-- Witness for C8 at concrete inputs: over the snapshot u1, u2, u3 where
evaluating u2 fails, the store and kick list equal those of the run over
u1 and u3 alone, u2's failure is logged, and u2's record is untouched. -/
theorem c8_sweep_failure_isolated_witness :
    (runOwnershipSweep sweepCtxFail sweepDb3).db =
      (sweepList sweepCtxFail ([sweepUser1] ++ [sweepUser3]) ⟨sweepDb3, [], []⟩).db ∧
    (runOwnershipSweep sweepCtxFail sweepDb3).kicked =
      (sweepList sweepCtxFail ([sweepUser1] ++ [sweepUser3]) ⟨sweepDb3, [], []⟩).kicked ∧
    "u2" ∈ (runOwnershipSweep sweepCtxFail sweepDb3).loggedErrors ∧
    getUserByTelegramId (runOwnershipSweep sweepCtxFail sweepDb3).db "u2" =
      getUserByTelegramId sweepDb3 "u2" := by
  have h := c8_sweep_failure_isolated sweepCtxFail sweepDb3 [sweepUser1] [sweepUser3]
    sweepUser2 "boom" rfl rfl (by decide) rfl (by decide)
  simpa using h

/-- C1: the failing input for the claim that the sweep's revocation sets
verified to false and clears the challenge fields.  Running the sweep over
the store holding only revokeUser (verified, non-whitelisted, holding
0.001 percent of supply, below the 0.1 percent threshold) performs the
revocation side effects (kick and ownership_revoked event), refreshes the
balance snapshot and deletes no record, but leaves verified equal to true
and the challenge fields still set. -/
theorem c1_revocation_leaves_verified_and_challenge :
    (runOwnershipSweep sweepCtxBelow revokeDb).db.users =
      [{ revokeUser with lastBalance := some 1, lastCheckedAt := some 2000 }] ∧
    (runOwnershipSweep sweepCtxBelow revokeDb).db.events =
      [⟨1, "ownership_revoked"⟩] ∧
    (runOwnershipSweep sweepCtxBelow revokeDb).kicked = ["whale1"] ∧
    { revokeUser with lastBalance := some (1 : ℚ), lastCheckedAt := some 2000 }.verified
      = true ∧
    { revokeUser with lastBalance := some (1 : ℚ), lastCheckedAt := some 2000
      }.verificationCode = some (5 / 1000000) := by
  refine ⟨?_, ?_, ?_, rfl, rfl⟩ <;>
    norm_num [runOwnershipSweep, getVerifiedUsers, revokeDb, revokeUser,
      sweepList, sweepStep, sweepCtxBelow, updateBalance, updateWhere, logEvent,
      upsertUser, getUserByTelegramId, insertEvent, List.filter, List.find?,
      (show ¬ (("WalletW" : String) = "") by decide),
      (show ¬ (("-100" : String) = "") by decide)]

end SafeSol
